import Mathlib

/-!
Verification of `pkg/kube-metrics/metrics.go` (package `kubemetrics`) from the
istio-operator vendor tree (operator-framework/operator-sdk).

The Go file is embedded shallowly:

* `schema.GroupVersionKind`, `metav1.APIResourceList` and `metav1.APIResource`
  become Lean structures carrying exactly the fields the file reads.
* The pure functions `generateMetricFamilies` and `isNamespaced` are translated
  directly.
* `GetNamespacesForMetrics` reads the watch-namespace environment value through
  `k8sutil.GetWatchNamespace`; that external lookup is passed in as an
  `Except`-valued argument, and Go's `strings.Split(s, ",")` is embedded as a
  recursive split over the character list.
* `GenerateAndServeCRMetrics` performs external calls
  (`getAPIResourceLists`, `newClientForGVK`, the metrics-store constructors and
  `go ServeMetrics`).  Those collaborators live outside this file, so they are
  modelled as an environment of `Except`-valued oracles; the function returns,
  in order, the trace of external effects it performed, the list of store
  groups it accumulated (one group per GVK, recording the constructor and its
  arguments), and the `error` result of the Go function.
-/

/-- Go errors in this file are produced by `errors.New` / returned opaquely;
they are modelled as their message strings. -/
abbrev GoErr := String

/-- Embeds `schema.GroupVersionKind` (the three fields read by metrics.go). -/
structure GroupVersionKind where
  group : String
  version : String
  kind : String
deriving DecidableEq

/-- Embeds `gvk.GroupVersion().String()` from apimachinery: the group and
version joined by a slash, or just the version when the group is empty. -/
def GroupVersionKind.groupVersionString (gvk : GroupVersionKind) : String :=
  if gvk.group = "" then gvk.version else gvk.group ++ "/" ++ gvk.version

/-- Embeds `gvk.String()` from apimachinery:
`Group + "/" + Version + ", Kind=" + Kind`. -/
def GroupVersionKind.goString (gvk : GroupVersionKind) : String :=
  gvk.group ++ "/" ++ gvk.version ++ ", Kind=" ++ gvk.kind

/-- Embeds `metav1.APIResource` (the two fields read by metrics.go). -/
structure APIResource where
  kind : String
  namespaced : Bool
deriving DecidableEq

/-- Embeds `metav1.APIResourceList` (the two fields read by metrics.go). -/
structure APIResourceList where
  groupVersion : String
  apiResources : List APIResource
deriving DecidableEq

/-- Embeds `unstructured.Unstructured` as far as metrics.go reads it:
`GetNamespace()` and `GetName()`. -/
structure Unstructured where
  objNamespace : String
  objName : String

/-- Embeds `ksmetric.Metric`: the value (a `float64` in Go, but only the
constant 1 is ever stored here, so a `Nat` is exact), label keys and label
values. -/
structure Metric where
  value : Nat
  labelKeys : List String
  labelValues : List String

/-- Embeds `ksmetric.Family` as used here: a list of metrics. -/
structure Family where
  metrics : List Metric

/-- Embeds `ksmetric.Type`; only `Gauge` is used. -/
inductive MetricType where
  | Gauge

/-- Embeds `ksmetric.FamilyGenerator`: name, type, help text and the
per-object generator function.  The Go generator takes `interface\x7b\x7d` and
type-asserts to `*unstructured.Unstructured`; here it takes `Unstructured`
directly. -/
structure FamilyGenerator where
  name : String
  type : MetricType
  help : String
  generateFunc : Unstructured → Family

/-- Embeds Go's `strings.ToLower` as a character-wise lowercasing of the
string (exact on the ASCII kind names this file handles). -/
def stringToLower (s : String) : String :=
  String.mk (s.toList.map Char.toLower)

/-- Embeds `generateMetricFamilies` from metrics.go: one gauge family named
`<lowercased kind>_info` whose generator emits a single metric of value 1 with
label keys `namespace` and the lowercased kind, and label values the object's
namespace and name. -/
def generateMetricFamilies (kind : String) : List FamilyGenerator :=
  let helpText := "Information about the " ++ kind ++ " custom resource."
  let kindName := stringToLower kind
  let metricName := kindName ++ "_info"
  [{ name := metricName
     type := MetricType.Gauge
     help := helpText
     generateFunc := fun crd =>
       { metrics :=
           [{ value := 1
              labelKeys := ["namespace", kindName]
              labelValues := [crd.objNamespace, crd.objName] }] } }]

/-- Embeds Go's `strings.Split(s, ",")` over the character list: split at every
comma, keeping empty tokens; the result is never the empty list. -/
def splitComma : List Char → List (List Char)
  | [] => [[]]
  | c :: cs =>
    if c = ',' then [] :: splitComma cs
    else
      match splitComma cs with
      | [] => [[c]]
      | t :: ts => (c :: t) :: ts

/-- Embeds `GetNamespacesForMetrics` from metrics.go.  The call to
`k8sutil.GetWatchNamespace()` (an environment-variable lookup living outside
this file) is supplied as the `Except`-valued argument `watchNamespaceRes`. -/
def GetNamespacesForMetrics (operatorNs : String)
    (watchNamespaceRes : Except GoErr String) : Except GoErr (List String) :=
  let ns := [operatorNs]
  match watchNamespaceRes with
  | Except.error e => Except.error e
  | Except.ok watchNamespace =>
    if watchNamespace.toList.contains ',' then
      Except.ok ((splitComma watchNamespace.toList).map (fun cs => String.mk cs))
    else
      Except.ok ns

/-- Embeds the inner loop of `isNamespaced`: the first entry of the resource
list whose `Kind` equals the requested kind. -/
def findKindRes (kind : String) : List APIResource → Option APIResource
  | [] => none
  | r :: rs => if r.kind = kind then some r else findKindRes kind rs

/-- Embeds `isNamespaced` from metrics.go: scan the catalog in order; in every
entry whose `GroupVersion` equals `gvk.GroupVersion().String()`, scan its
resources for the kind and return its `Namespaced` flag; if the scan falls
through, fail with the "unable to find type" error. -/
def isNamespaced (gvk : GroupVersionKind) :
    List APIResourceList → Except GoErr Bool
  | [] => Except.error ("unable to find type: " ++ gvk.goString ++ " in server")
  | resourceList :: rest =>
    if resourceList.groupVersion = gvk.groupVersionString then
      match findKindRes gvk.kind resourceList.apiResources with
      | some apiResource => Except.ok apiResource.namespaced
      | none => isNamespaced gvk rest
    else
      isNamespaced gvk rest

/-- An abstract dynamic client as returned by `newClientForGVK` (opaque to
metrics.go; identified by a token). -/
structure DClient where
  clientId : Nat
deriving DecidableEq

/-- One group of metrics stores built for a single GVK (the Go `gvkStores`
slice), recording which constructor was called and with which arguments. -/
inductive StoreGroup where
  | namespacedStores (dclient : DClient) (ns : List String)
      (apiVersion kind : String) (families : List FamilyGenerator)
  | clusterScopedStores (dclient : DClient)
      (apiVersion kind : String) (families : List FamilyGenerator)

/-- An externally observable effect performed by `GenerateAndServeCRMetrics`:
fetching the API resource catalog, constructing a client for a GVK, building a
store group for a GVK, or starting the background metrics server. -/
inductive Effect where
  | fetchCatalog
  | createClient (apiVersion kind : String)
  | buildStores (apiVersion kind : String)
  | startServe (host : String) (port : Int)
deriving DecidableEq

/-- The external collaborators of `GenerateAndServeCRMetrics` (functions of
the same Go package living outside this file), modelled as oracles:
`getAPIResourceLists(cfg)` and `newClientForGVK(cfg, lists, apiVersion, kind)`.
The `cfg` argument is folded into the environment. -/
structure KubeEnv where
  getAPIResourceLists : Except GoErr (List APIResourceList)
  newClientForGVK : List APIResourceList → String → String → Except GoErr DClient

/-- The error message returned by `GenerateAndServeCRMetrics` when the
namespace list is empty. -/
def nsEmptyErr : GoErr :=
  "namespaces were empty; pass at least one namespace to generate custom resource metrics"

/-- Embeds the `for _, gvk := range operatorGVKs` loop body of
`GenerateAndServeCRMetrics`: for each GVK, generate the metric families,
create the client, classify the scope with `isNamespaced`, and build either
namespaced or cluster-scoped stores; the first error stops the loop.  Returns
the trace of effects, the accumulated store groups (`allStores`) and the
loop's outcome. -/
def gvkLoop (env : KubeEnv) (ns : List String) (cat : List APIResourceList) :
    List GroupVersionKind → List Effect × List StoreGroup × Except GoErr Unit
  | [] => ([], [], Except.ok ())
  | gvk :: rest =>
    match env.newClientForGVK cat gvk.groupVersionString gvk.kind with
    | Except.error e =>
      ([Effect.createClient gvk.groupVersionString gvk.kind], [], Except.error e)
    | Except.ok dclient =>
      match isNamespaced gvk cat with
      | Except.error e =>
        ([Effect.createClient gvk.groupVersionString gvk.kind], [], Except.error e)
      | Except.ok namespaced =>
        let gvkStores :=
          if namespaced then
            StoreGroup.namespacedStores dclient ns gvk.groupVersionString gvk.kind
              (generateMetricFamilies gvk.kind)
          else
            StoreGroup.clusterScopedStores dclient gvk.groupVersionString gvk.kind
              (generateMetricFamilies gvk.kind)
        (Effect.createClient gvk.groupVersionString gvk.kind ::
           Effect.buildStores gvk.groupVersionString gvk.kind ::
           (gvkLoop env ns cat rest).1,
         gvkStores :: (gvkLoop env ns cat rest).2.1,
         (gvkLoop env ns cat rest).2.2)

/-- Embeds `GenerateAndServeCRMetrics` from metrics.go: reject an empty
namespace list before any external call; fetch the catalog; run the per-GVK
loop; on success start the background server (`go ServeMetrics`) and return
nil.  Returns the effect trace, the accumulated `allStores` and the Go error
result. -/
def GenerateAndServeCRMetrics (env : KubeEnv) (ns : List String)
    (operatorGVKs : List GroupVersionKind) (host : String) (port : Int) :
    List Effect × List StoreGroup × Except GoErr Unit :=
  if ns.length < 1 then
    ([], [], Except.error nsEmptyErr)
  else
    match env.getAPIResourceLists with
    | Except.error e => ([Effect.fetchCatalog], [], Except.error e)
    | Except.ok cat =>
      match (gvkLoop env ns cat operatorGVKs).2.2 with
      | Except.error e =>
        (Effect.fetchCatalog :: (gvkLoop env ns cat operatorGVKs).1,
         (gvkLoop env ns cat operatorGVKs).2.1,
         Except.error e)
      | Except.ok _ =>
        (Effect.fetchCatalog :: ((gvkLoop env ns cat operatorGVKs).1 ++ [Effect.startServe host port]),
         (gvkLoop env ns cat operatorGVKs).2.1,
         Except.ok ())

/-- The GVK is processed without error by the loop body: the client is
constructed and the scope classification succeeds. -/
def gvkOk (env : KubeEnv) (cat : List APIResourceList) (gvk : GroupVersionKind) : Prop :=
  (∃ c, env.newClientForGVK cat gvk.groupVersionString gvk.kind = Except.ok c) ∧
  (∃ b, isNamespaced gvk cat = Except.ok b)

/-- The GVK is the one at which the loop fails, with error `e`: either client
construction fails with `e`, or it succeeds and the scope classification
fails with `e`. -/
def gvkFails (env : KubeEnv) (cat : List APIResourceList)
    (gvk : GroupVersionKind) (e : GoErr) : Prop :=
  env.newClientForGVK cat gvk.groupVersionString gvk.kind = Except.error e ∨
  ((∃ c, env.newClientForGVK cat gvk.groupVersionString gvk.kind = Except.ok c) ∧
    isNamespaced gvk cat = Except.error e)

/-- The store group the loop builds for one GVK, when both external steps for
it succeed (`none` when either fails). -/
def expectedStoreGroup (env : KubeEnv) (ns : List String)
    (cat : List APIResourceList) (gvk : GroupVersionKind) : Option StoreGroup :=
  match env.newClientForGVK cat gvk.groupVersionString gvk.kind, isNamespaced gvk cat with
  | Except.ok dclient, Except.ok true =>
    some (StoreGroup.namespacedStores dclient ns gvk.groupVersionString gvk.kind
      (generateMetricFamilies gvk.kind))
  | Except.ok dclient, Except.ok false =>
    some (StoreGroup.clusterScopedStores dclient gvk.groupVersionString gvk.kind
      (generateMetricFamilies gvk.kind))
  | _, _ => none

/-- A concrete catalog for witnesses: one group/version with a namespaced
kind and a cluster-scoped kind. -/
def catW : List APIResourceList :=
  [{ groupVersion := "apps/v1"
     apiResources := [{ kind := "Good", namespaced := true },
                      { kind := "Clus", namespaced := false }] }]

/-- A concrete environment for witnesses: the catalog fetch yields `catW` and
client construction fails exactly for the kind `Bad`. -/
def envW : KubeEnv :=
  { getAPIResourceLists := Except.ok catW
    newClientForGVK := fun _ _ kind =>
      if kind = "Bad" then Except.error "client construction failed"
      else Except.ok { clientId := 1 } }

/-- A concrete environment for witnesses whose catalog fetch fails. -/
def envErrW : KubeEnv :=
  { getAPIResourceLists := Except.error "catalog fetch failed"
    newClientForGVK := fun _ _ _ => Except.ok { clientId := 0 } }

/-- A namespaced witness GVK present in `catW`. -/
def gvkGood : GroupVersionKind := { group := "apps", version := "v1", kind := "Good" }

/-- A cluster-scoped witness GVK present in `catW`. -/
def gvkClus : GroupVersionKind := { group := "apps", version := "v1", kind := "Clus" }

/-- A witness GVK for which `envW` fails to construct a client. -/
def gvkBad : GroupVersionKind := { group := "apps", version := "v1", kind := "Bad" }

/-- Claim C1, counterexample: for the kind `Pod`, the metric generated for a
resource instance carries label keys `namespace` and `pod` (the lowercased
kind), not `namespace` and `name` as the claim states. -/
theorem generateMetricFamilies_labelKeys_counterexample :
    (generateMetricFamilies "Pod").map
        (fun fg => ((fg.generateFunc { objNamespace := "default", objName := "p1" }).metrics.map
          (fun m => m.labelKeys)))
      = [[["namespace", "pod"]]] ∧
    (["namespace", "pod"] : List String) ≠ ["namespace", "name"] := by
  exact ⟨by decide, by decide⟩

/-- Claim C1, amended: for every kind string, the metric family produced by
`generateMetricFamilies` has name the lowercased kind followed by `_info`, and
the metric generated for any resource instance has value 1, label keys
`namespace` and the lowercased kind, and label values the instance's namespace
and name. -/
theorem generateMetricFamilies_amended (kind : String) (crd : Unstructured) :
    (generateMetricFamilies kind).map (fun fg => fg.name)
      = [stringToLower kind ++ "_info"] ∧
    (generateMetricFamilies kind).map
        (fun fg => ((fg.generateFunc crd).metrics.map
          (fun m => (m.value, m.labelKeys, m.labelValues))))
      = [[(1, ["namespace", stringToLower kind], [crd.objNamespace, crd.objName])]] := by
  exact ⟨rfl, rfl⟩

/-- Claim C2: with an empty (or nil) namespace list, `GenerateAndServeCRMetrics`
returns the namespaces-were-empty error with an empty effect trace and no
stores: it fails before any catalog fetch, store construction or server
start, for every environment, GVK list, host and port. -/
theorem generateAndServeCRMetrics_empty_ns (env : KubeEnv)
    (operatorGVKs : List GroupVersionKind) (host : String) (port : Int) :
    GenerateAndServeCRMetrics env [] operatorGVKs host port
      = ([], [], Except.error nsEmptyErr) := by
  rfl

/-- Go's comma split never yields an empty token list. -/
theorem splitComma_ne_nil (cs : List Char) : splitComma cs ≠ [] := by
  induction cs with
  | nil => simp [splitComma]
  | cons c cs ih =>
    simp only [splitComma]
    split
    · simp
    · split
      · simp
      · simp

/-- Claim C9: whenever `GetNamespacesForMetrics` succeeds, its result is
non-empty; it is exactly `[operatorNs]` when the watch-namespace value has no
comma, and exactly the comma-split watch-namespace value otherwise. -/
theorem getNamespacesForMetrics_success_spec (operatorNs w : String)
    (res : List String)
    (h : GetNamespacesForMetrics operatorNs (Except.ok w) = Except.ok res) :
    res ≠ [] ∧
    (w.toList.contains ',' = false → res = [operatorNs]) ∧
    (w.toList.contains ',' = true →
      res = (splitComma w.toList).map (fun cs => String.mk cs)) := by
  by_cases hc : w.toList.contains ',' = true
  · simp only [GetNamespacesForMetrics] at h
    rw [if_pos hc] at h
    injection h with h
    subst h
    refine ⟨?_, ?_, fun _ => rfl⟩
    · simp only [ne_eq, List.map_eq_nil_iff]
      exact splitComma_ne_nil _
    · intro hfalse
      rw [hc] at hfalse
      cases hfalse
  · simp only [GetNamespacesForMetrics] at h
    rw [if_neg hc] at h
    injection h with h
    subst h
    exact ⟨by simp, fun _ => rfl, fun htrue => absurd htrue hc⟩

/-- Concrete instance of `getNamespacesForMetrics_success_spec`: operator
namespace `op`, watch-namespace value `a,b`. -/
theorem getNamespacesForMetrics_success_spec_witness :
    (["a", "b"] : List String) ≠ [] ∧
    (("a,b".toList.contains ',') = false → (["a", "b"] : List String) = ["op"]) ∧
    (("a,b".toList.contains ',') = true →
      (["a", "b"] : List String) = (splitComma "a,b".toList).map (fun cs => String.mk cs)) :=
  getNamespacesForMetrics_success_spec "op" "a,b" ["a", "b"] (by rfl)

/-- A hit of the inner resource scan is a member of the list and has the
requested kind. -/
theorem findKindRes_some {kind : String} {rs : List APIResource} {r : APIResource}
    (h : findKindRes kind rs = some r) : r ∈ rs ∧ r.kind = kind := by
  induction rs with
  | nil => simp [findKindRes] at h
  | cons a as ih =>
    by_cases hak : a.kind = kind
    · simp only [findKindRes, if_pos hak] at h
      injection h with h
      subst h
      exact ⟨List.mem_cons_self a as, hak⟩
    · simp only [findKindRes, if_neg hak] at h
      obtain ⟨hm, hk⟩ := ih h
      exact ⟨List.mem_cons_of_mem a hm, hk⟩

/-- A miss of the inner resource scan means no member has the requested
kind. -/
theorem findKindRes_none {kind : String} {rs : List APIResource}
    (h : findKindRes kind rs = none) : ∀ r ∈ rs, r.kind ≠ kind := by
  induction rs with
  | nil => intro r hr; simp at hr
  | cons a as ih =>
    by_cases hak : a.kind = kind
    · simp only [findKindRes, if_pos hak] at h
      cases h
    · simp only [findKindRes, if_neg hak] at h
      intro r hr
      rcases List.mem_cons.mp hr with hra | hra
      · subst hra; exact hak
      · exact ih h r hra

/-- Claim C3: when the catalog holds an entry matching the GVK's group/version
string with a resource of the GVK's kind, and every such matching resource
records the flag `b`, the classification succeeds and returns `b`. -/
theorem isNamespaced_present_returns_flag (gvk : GroupVersionKind)
    (lists : List APIResourceList) (b : Bool)
    (hex : ∃ l ∈ lists, l.groupVersion = gvk.groupVersionString ∧
      ∃ r ∈ l.apiResources, r.kind = gvk.kind)
    (hall : ∀ l ∈ lists, l.groupVersion = gvk.groupVersionString →
      ∀ r ∈ l.apiResources, r.kind = gvk.kind → r.namespaced = b) :
    isNamespaced gvk lists = Except.ok b := by
  induction lists with
  | nil => simp at hex
  | cons l ls ih =>
    by_cases hgv : l.groupVersion = gvk.groupVersionString
    · cases hfk : findKindRes gvk.kind l.apiResources with
      | some r =>
        obtain ⟨hm, hk⟩ := findKindRes_some hfk
        simp only [isNamespaced, if_pos hgv, hfk]
        rw [hall l (List.mem_cons_self l ls) hgv r hm hk]
      | none =>
        simp only [isNamespaced, if_pos hgv, hfk]
        apply ih
        · obtain ⟨l2, hl2, hgv2, r2, hr2, hk2⟩ := hex
          rcases List.mem_cons.mp hl2 with hl | hl
          · subst hl
            exact absurd hk2 (findKindRes_none hfk r2 hr2)
          · exact ⟨l2, hl, hgv2, r2, hr2, hk2⟩
        · intro l2 hl2 hgv2 r2 hr2 hk2
          exact hall l2 (List.mem_cons_of_mem l hl2) hgv2 r2 hr2 hk2
    · simp only [isNamespaced, if_neg hgv]
      apply ih
      · obtain ⟨l2, hl2, hgv2, r2, hr2, hk2⟩ := hex
        rcases List.mem_cons.mp hl2 with hl | hl
        · subst hl; exact absurd hgv2 hgv
        · exact ⟨l2, hl, hgv2, r2, hr2, hk2⟩
      · intro l2 hl2 hgv2 r2 hr2 hk2
        exact hall l2 (List.mem_cons_of_mem l hl2) hgv2 r2 hr2 hk2

/-- Concrete instance of `isNamespaced_present_returns_flag`: the kind `Good`
recorded as namespaced under `apps/v1` in `catW`. -/
theorem isNamespaced_present_returns_flag_witness :
    isNamespaced gvkGood catW = Except.ok true :=
  isNamespaced_present_returns_flag gvkGood catW true (by decide) (by decide)

/-- Claim C4: when no catalog entry matching the GVK's group/version string
holds a resource of the GVK's kind, the classification fails with the
"unable to find type" error naming the missing type. -/
theorem isNamespaced_absent_errors (gvk : GroupVersionKind)
    (lists : List APIResourceList)
    (habs : ∀ l ∈ lists, l.groupVersion = gvk.groupVersionString →
      ∀ r ∈ l.apiResources, r.kind ≠ gvk.kind) :
    isNamespaced gvk lists =
      Except.error ("unable to find type: " ++ gvk.goString ++ " in server") := by
  induction lists with
  | nil => rfl
  | cons l ls ih =>
    by_cases hgv : l.groupVersion = gvk.groupVersionString
    · cases hfk : findKindRes gvk.kind l.apiResources with
      | some r =>
        obtain ⟨hm, hk⟩ := findKindRes_some hfk
        exact absurd hk (habs l (List.mem_cons_self l ls) hgv r hm)
      | none =>
        simp only [isNamespaced, if_pos hgv, hfk]
        exact ih (fun l2 hl2 => habs l2 (List.mem_cons_of_mem l hl2))
    · simp only [isNamespaced, if_neg hgv]
      exact ih (fun l2 hl2 => habs l2 (List.mem_cons_of_mem l hl2))

/-- Concrete instance of `isNamespaced_absent_errors`: the kind `Gadget` is
absent from `catW`. -/
theorem isNamespaced_absent_errors_witness :
    isNamespaced { group := "apps", version := "v1", kind := "Gadget" } catW =
      Except.error "unable to find type: apps/v1, Kind=Gadget in server" :=
  isNamespaced_absent_errors { group := "apps", version := "v1", kind := "Gadget" }
    catW (by decide)

/-- Claim C10: the scan of `isNamespaced` skips every entry whose group/version
string differs from the GVK's, and the first entry in catalog order that both
matches the group/version string and holds the kind determines the result,
whatever comes after it. -/
theorem isNamespaced_first_match (gvk : GroupVersionKind) :
    (∀ l ls, l.groupVersion ≠ gvk.groupVersionString →
      isNamespaced gvk (l :: ls) = isNamespaced gvk ls) ∧
    (∀ pre l rest r,
      (∀ p ∈ pre, p.groupVersion ≠ gvk.groupVersionString ∨
        findKindRes gvk.kind p.apiResources = none) →
      l.groupVersion = gvk.groupVersionString →
      findKindRes gvk.kind l.apiResources = some r →
      isNamespaced gvk (pre ++ l :: rest) = Except.ok r.namespaced) := by
  constructor
  · intro l ls h
    simp only [isNamespaced, if_neg h]
  · intro pre
    induction pre with
    | nil =>
      intro l rest r _ hgv hfk
      simp only [List.nil_append, isNamespaced, if_pos hgv, hfk]
    | cons p ps ih =>
      intro l rest r hskip hgv hfk
      have hp := hskip p (List.mem_cons_self p ps)
      have htail : ∀ q ∈ ps, q.groupVersion ≠ gvk.groupVersionString ∨
          findKindRes gvk.kind q.apiResources = none :=
        fun q hq => hskip q (List.mem_cons_of_mem p hq)
      rcases hp with hp | hp
      · simp only [List.cons_append, isNamespaced, if_neg hp]
        exact ih l rest r htail hgv hfk
      · by_cases hpgv : p.groupVersion = gvk.groupVersionString
        · simp only [List.cons_append, isNamespaced, if_pos hpgv, hp]
          exact ih l rest r htail hgv hfk
        · simp only [List.cons_append, isNamespaced, if_neg hpgv]
          exact ih l rest r htail hgv hfk

/-- Concrete instance of `isNamespaced_first_match`: an entry under
`batch/v1` holding the kind and an `apps/v1` entry missing it are skipped,
the first `apps/v1` entry holding `Deployment` (namespaced) wins, and a later
conflicting entry is ignored; and a non-matching head entry is skipped. -/
theorem isNamespaced_first_match_witness :
    isNamespaced { group := "apps", version := "v1", kind := "Deployment" }
        ([{ groupVersion := "batch/v1",
            apiResources := [{ kind := "Deployment", namespaced := false }] },
          { groupVersion := "apps/v1",
            apiResources := [{ kind := "CronJob", namespaced := true }] }] ++
         ({ groupVersion := "apps/v1",
            apiResources := [{ kind := "Job", namespaced := false },
                             { kind := "Deployment", namespaced := true }] } ::
          [{ groupVersion := "apps/v1",
             apiResources := [{ kind := "Deployment", namespaced := false }] }]))
      = Except.ok true ∧
    isNamespaced { group := "apps", version := "v1", kind := "Deployment" }
        ({ groupVersion := "batch/v1", apiResources := [] } :: catW)
      = isNamespaced { group := "apps", version := "v1", kind := "Deployment" } catW :=
  ⟨(isNamespaced_first_match { group := "apps", version := "v1", kind := "Deployment" }).2
      [{ groupVersion := "batch/v1",
         apiResources := [{ kind := "Deployment", namespaced := false }] },
       { groupVersion := "apps/v1",
         apiResources := [{ kind := "CronJob", namespaced := true }] }]
      { groupVersion := "apps/v1",
        apiResources := [{ kind := "Job", namespaced := false },
                         { kind := "Deployment", namespaced := true }] }
      [{ groupVersion := "apps/v1",
         apiResources := [{ kind := "Deployment", namespaced := false }] }]
      { kind := "Deployment", namespaced := true }
      (by decide) (by decide) (by decide),
   (isNamespaced_first_match { group := "apps", version := "v1", kind := "Deployment" }).1
      { groupVersion := "batch/v1", apiResources := [] } catW (by decide)⟩

/-- The per-GVK loop never emits a server-start effect. -/
theorem gvkLoop_no_serve (env : KubeEnv) (ns : List String)
    (cat : List APIResourceList) :
    ∀ gvks h p, Effect.startServe h p ∉ (gvkLoop env ns cat gvks).1 := by
  intro gvks
  induction gvks with
  | nil => intro h p; simp [gvkLoop]
  | cons g rest ih =>
    intro h p
    cases hc : env.newClientForGVK cat g.groupVersionString g.kind with
    | error e => simp [gvkLoop, hc]
    | ok c =>
      cases hn : isNamespaced g cat with
      | error e => simp [gvkLoop, hc, hn]
      | ok b =>
        simp only [gvkLoop, hc, hn, List.mem_cons, not_or]
        exact ⟨by simp, by simp, ih h p⟩

/-- A failing head GVK stops the loop at once with its error: one client
effect, no stores. -/
theorem gvkLoop_fail_head (env : KubeEnv) (ns : List String)
    (cat : List APIResourceList) (g : GroupVersionKind)
    (post : List GroupVersionKind) (e : GoErr) (hf : gvkFails env cat g e) :
    gvkLoop env ns cat (g :: post) =
      ([Effect.createClient g.groupVersionString g.kind], [], Except.error e) := by
  rcases hf with hc | ⟨⟨c, hc⟩, hn⟩
  · simp [gvkLoop, hc]
  · simp [gvkLoop, hc, hn]

/-- A succeeding head GVK contributes its client and store effects and exactly
its expected store group, then the loop continues on the tail. -/
theorem gvkLoop_ok_cons (env : KubeEnv) (ns : List String)
    (cat : List APIResourceList) (g : GroupVersionKind)
    (rest : List GroupVersionKind) (hg : gvkOk env cat g) :
    ∃ sg, expectedStoreGroup env ns cat g = some sg ∧
      gvkLoop env ns cat (g :: rest) =
        (Effect.createClient g.groupVersionString g.kind ::
           Effect.buildStores g.groupVersionString g.kind ::
           (gvkLoop env ns cat rest).1,
         sg :: (gvkLoop env ns cat rest).2.1,
         (gvkLoop env ns cat rest).2.2) := by
  obtain ⟨⟨c, hc⟩, b, hn⟩ := hg
  cases b
  · exact ⟨StoreGroup.clusterScopedStores c g.groupVersionString g.kind
        (generateMetricFamilies g.kind),
      by simp [expectedStoreGroup, hc, hn], by simp [gvkLoop, hc, hn]⟩
  · exact ⟨StoreGroup.namespacedStores c ns g.groupVersionString g.kind
        (generateMetricFamilies g.kind),
      by simp [expectedStoreGroup, hc, hn], by simp [gvkLoop, hc, hn]⟩

/-- When every GVK succeeds the loop returns no error, builds exactly the
expected store group for each GVK in input order, and records a store-build
effect for each GVK. -/
theorem gvkLoop_all_ok (env : KubeEnv) (ns : List String)
    (cat : List APIResourceList) :
    ∀ gvks, (∀ g ∈ gvks, gvkOk env cat g) →
      (gvkLoop env ns cat gvks).2.2 = Except.ok () ∧
      ((gvkLoop env ns cat gvks).2.1).map Option.some =
        gvks.map (expectedStoreGroup env ns cat) ∧
      (∀ g ∈ gvks,
        Effect.buildStores g.groupVersionString g.kind ∈ (gvkLoop env ns cat gvks).1) := by
  intro gvks
  induction gvks with
  | nil =>
    intro _
    exact ⟨rfl, rfl, fun g hg => absurd hg (List.not_mem_nil g)⟩
  | cons g rest ih =>
    intro hall
    obtain ⟨sg, hsg, heq⟩ :=
      gvkLoop_ok_cons env ns cat g rest (hall g (List.mem_cons_self g rest))
    obtain ⟨h1, h2, h3⟩ := ih (fun x hx => hall x (List.mem_cons_of_mem g hx))
    rw [heq]
    refine ⟨h1, ?_, ?_⟩
    · simp only [List.map_cons]
      rw [hsg, h2]
    · intro x hx
      rcases List.mem_cons.mp hx with hx | hx
      · subst hx
        exact List.mem_cons_of_mem _ (List.mem_cons_self _ _)
      · exact List.mem_cons_of_mem _ (List.mem_cons_of_mem _ (h3 x hx))

/-- A prefix of succeeding GVKs only prepends effects and exactly one store
group per prefix GVK; the loop's outcome is that of the remainder. -/
theorem gvkLoop_pre_append (env : KubeEnv) (ns : List String)
    (cat : List APIResourceList) :
    ∀ pre rest, (∀ g ∈ pre, gvkOk env cat g) →
      ∃ t0 st0, st0.length = pre.length ∧
        (gvkLoop env ns cat (pre ++ rest)).1 = t0 ++ (gvkLoop env ns cat rest).1 ∧
        (gvkLoop env ns cat (pre ++ rest)).2.1 = st0 ++ (gvkLoop env ns cat rest).2.1 ∧
        (gvkLoop env ns cat (pre ++ rest)).2.2 = (gvkLoop env ns cat rest).2.2 := by
  intro pre
  induction pre with
  | nil => intro rest _; exact ⟨[], [], rfl, rfl, rfl, rfl⟩
  | cons g ps ih =>
    intro rest hall
    obtain ⟨sg, hsg, heq⟩ :=
      gvkLoop_ok_cons env ns cat g (ps ++ rest) (hall g (List.mem_cons_self g ps))
    obtain ⟨t0, st0, hlen, ht, hst, hr⟩ :=
      ih rest (fun x hx => hall x (List.mem_cons_of_mem g hx))
    refine ⟨Effect.createClient g.groupVersionString g.kind ::
        Effect.buildStores g.groupVersionString g.kind :: t0, sg :: st0, ?_, ?_, ?_, ?_⟩
    · simp [hlen]
    · rw [List.cons_append, heq]
      simp only [ht, List.cons_append]
    · rw [List.cons_append, heq]
      simp only [hst, List.cons_append]
    · rw [List.cons_append, heq]
      exact hr

/-- Shared failure analysis: with a non-empty namespace list, a fetched
catalog, a prefix of succeeding GVKs and a failing GVK, the run returns that
GVK's error, holds one store group per prefix GVK only, and never starts the
server. -/
theorem runFailsAt (env : KubeEnv) (ns : List String) (cat : List APIResourceList)
    (pre : List GroupVersionKind) (g : GroupVersionKind)
    (post : List GroupVersionKind) (host : String) (port : Int) (e : GoErr)
    (hns : ns ≠ []) (hcat : env.getAPIResourceLists = Except.ok cat)
    (hpre : ∀ x ∈ pre, gvkOk env cat x) (hfail : gvkFails env cat g e) :
    (GenerateAndServeCRMetrics env ns (pre ++ g :: post) host port).2.2 = Except.error e ∧
    (GenerateAndServeCRMetrics env ns (pre ++ g :: post) host port).2.1.length = pre.length ∧
    ∀ h p, Effect.startServe h p ∉
      (GenerateAndServeCRMetrics env ns (pre ++ g :: post) host port).1 := by
  have hlen1 : ¬ ns.length < 1 := by
    have := List.length_pos.mpr hns
    omega
  obtain ⟨t0, st0, hlen, ht, hst, hr⟩ := gvkLoop_pre_append env ns cat pre (g :: post) hpre
  have hhead := gvkLoop_fail_head env ns cat g post e hfail
  have hloop2 : (gvkLoop env ns cat (pre ++ g :: post)).2.2 = Except.error e := by
    rw [hr, hhead]
  simp only [GenerateAndServeCRMetrics, if_neg hlen1, hcat, hloop2]
  refine ⟨trivial, ?_, ?_⟩
  · rw [hst, hhead]
    simp [hlen]
  · intro h p
    simp only [List.mem_cons, not_or]
    exact ⟨by simp, gvkLoop_no_serve env ns cat _ h p⟩

/-- Claim C5: with a non-empty namespace list, the first failure aborts the
whole setup with that failure's error.  When the catalog fetch fails, no store
is built for any GVK and the server is never started; when the fetch succeeds,
every GVK before `g` succeeds and `g` fails (client construction or scope
classification) with error `e`, the run returns `e`, builds store groups only
for the GVKs before `g`, and never starts the metrics server. -/
theorem generateAndServeCRMetrics_first_error_aborts (env : KubeEnv)
    (ns : List String) (host : String) (port : Int) (e : GoErr)
    (hns : ns ≠ []) :
    (∀ gvks, env.getAPIResourceLists = Except.error e →
      (GenerateAndServeCRMetrics env ns gvks host port).2.2 = Except.error e ∧
      (GenerateAndServeCRMetrics env ns gvks host port).2.1 = [] ∧
      ∀ h p, Effect.startServe h p ∉
        (GenerateAndServeCRMetrics env ns gvks host port).1) ∧
    (∀ cat pre g post, env.getAPIResourceLists = Except.ok cat →
      (∀ x ∈ pre, gvkOk env cat x) → gvkFails env cat g e →
      (GenerateAndServeCRMetrics env ns (pre ++ g :: post) host port).2.2 = Except.error e ∧
      (GenerateAndServeCRMetrics env ns (pre ++ g :: post) host port).2.1.length = pre.length ∧
      ∀ h p, Effect.startServe h p ∉
        (GenerateAndServeCRMetrics env ns (pre ++ g :: post) host port).1) := by
  constructor
  · intro gvks hcat
    have hmain : GenerateAndServeCRMetrics env ns gvks host port
        = ([Effect.fetchCatalog], [], Except.error e) := by
      simp [GenerateAndServeCRMetrics, hcat, hns]
    rw [hmain]
    refine ⟨rfl, rfl, ?_⟩
    intro h p
    simp
  · intro cat pre g post hcat hpre hfail
    exact runFailsAt env ns cat pre g post host port e hns hcat hpre hfail

/-- Concrete instance of `generateAndServeCRMetrics_first_error_aborts`: a
failing catalog fetch builds nothing and never serves; and with the fetch
succeeding, `gvkGood` succeeds, `gvkBad` fails client construction, and
`gvkClus` is never reached. -/
theorem generateAndServeCRMetrics_first_error_aborts_witness :
    ((GenerateAndServeCRMetrics envErrW ["ns1"] [gvkGood] "0.0.0.0" 8383).2.2
        = Except.error "catalog fetch failed" ∧
      (GenerateAndServeCRMetrics envErrW ["ns1"] [gvkGood] "0.0.0.0" 8383).2.1 = [] ∧
      ∀ h p, Effect.startServe h p ∉
        (GenerateAndServeCRMetrics envErrW ["ns1"] [gvkGood] "0.0.0.0" 8383).1) ∧
    ((GenerateAndServeCRMetrics envW ["ns1"] [gvkGood, gvkBad, gvkClus] "0.0.0.0" 8383).2.2
        = Except.error "client construction failed" ∧
      (GenerateAndServeCRMetrics envW ["ns1"] [gvkGood, gvkBad, gvkClus] "0.0.0.0" 8383).2.1.length
        = 1 ∧
      ∀ h p, Effect.startServe h p ∉
        (GenerateAndServeCRMetrics envW ["ns1"] [gvkGood, gvkBad, gvkClus] "0.0.0.0" 8383).1) :=
  ⟨(generateAndServeCRMetrics_first_error_aborts envErrW ["ns1"] "0.0.0.0" 8383
      "catalog fetch failed" (by decide)).1 [gvkGood] rfl,
    (generateAndServeCRMetrics_first_error_aborts envW ["ns1"] "0.0.0.0" 8383
      "client construction failed" (by decide)).2 catW [gvkGood] gvkBad [gvkClus] rfl
      (by intro x hx
          simp only [List.mem_singleton] at hx
          subst hx
          exact ⟨⟨{ clientId := 1 }, rfl⟩, true, rfl⟩)
      (Or.inl rfl)⟩

/-- Claim C6: with a non-empty namespace list, an error of the catalog fetch
is returned verbatim, and so is an error of client construction at the first
failing GVK: the message is neither wrapped nor replaced. -/
theorem generateAndServeCRMetrics_propagates_errors (env : KubeEnv)
    (ns : List String) (host : String) (port : Int) (e : GoErr) (hns : ns ≠ []) :
    (∀ gvks, env.getAPIResourceLists = Except.error e →
      (GenerateAndServeCRMetrics env ns gvks host port).2.2 = Except.error e) ∧
    (∀ cat pre g post, env.getAPIResourceLists = Except.ok cat →
      (∀ x ∈ pre, gvkOk env cat x) →
      env.newClientForGVK cat g.groupVersionString g.kind = Except.error e →
      (GenerateAndServeCRMetrics env ns (pre ++ g :: post) host port).2.2
        = Except.error e) := by
  have hlen1 : ¬ ns.length < 1 := by
    have := List.length_pos.mpr hns
    omega
  constructor
  · intro gvks hcat
    simp [GenerateAndServeCRMetrics, hcat, hns]
  · intro cat pre g post hcat hpre hclient
    exact (runFailsAt env ns cat pre g post host port e hns hcat hpre (Or.inl hclient)).1

/-- Concrete instance of `generateAndServeCRMetrics_propagates_errors`: a
failing catalog fetch and a failing client construction, each message
returned verbatim. -/
theorem generateAndServeCRMetrics_propagates_errors_witness :
    (GenerateAndServeCRMetrics envErrW ["ns1"] [gvkGood] "0.0.0.0" 8383).2.2
      = Except.error "catalog fetch failed" ∧
    (GenerateAndServeCRMetrics envW ["ns1"] [gvkBad] "0.0.0.0" 8383).2.2
      = Except.error "client construction failed" :=
  ⟨(generateAndServeCRMetrics_propagates_errors envErrW ["ns1"] "0.0.0.0" 8383
      "catalog fetch failed" (by decide)).1 [gvkGood] rfl,
   (generateAndServeCRMetrics_propagates_errors envW ["ns1"] "0.0.0.0" 8383
      "client construction failed" (by decide)).2 catW [] gvkBad [] rfl
      (by intro x hx; simp at hx) rfl⟩

/-- Claim C7: with a non-empty namespace list, a fetched catalog and every GVK
succeeding, the run succeeds and builds exactly one store group per GVK in
input order: namespaced stores over the given namespaces when the catalog
classifies the GVK as namespaced, cluster-scoped stores otherwise. -/
theorem generateAndServeCRMetrics_store_construction (env : KubeEnv)
    (ns : List String) (cat : List APIResourceList)
    (gvks : List GroupVersionKind) (host : String) (port : Int)
    (hns : ns ≠ []) (hcat : env.getAPIResourceLists = Except.ok cat)
    (hall : ∀ g ∈ gvks, gvkOk env cat g) :
    (GenerateAndServeCRMetrics env ns gvks host port).2.2 = Except.ok () ∧
    ((GenerateAndServeCRMetrics env ns gvks host port).2.1).map Option.some =
      gvks.map (expectedStoreGroup env ns cat) := by
  have hlen1 : ¬ ns.length < 1 := by
    have := List.length_pos.mpr hns
    omega
  obtain ⟨h1, h2, h3⟩ := gvkLoop_all_ok env ns cat gvks hall
  simp only [GenerateAndServeCRMetrics, if_neg hlen1, hcat, h1]
  exact ⟨trivial, h2⟩

/-- Concrete instance of `generateAndServeCRMetrics_store_construction`: a
namespaced and a cluster-scoped GVK. -/
theorem generateAndServeCRMetrics_store_construction_witness :
    (GenerateAndServeCRMetrics envW ["ns1"] [gvkGood, gvkClus] "0.0.0.0" 8383).2.2
      = Except.ok () ∧
    ((GenerateAndServeCRMetrics envW ["ns1"] [gvkGood, gvkClus] "0.0.0.0" 8383).2.1).map
        Option.some
      = [gvkGood, gvkClus].map (expectedStoreGroup envW ["ns1"] catW) :=
  generateAndServeCRMetrics_store_construction envW ["ns1"] catW
    [gvkGood, gvkClus] "0.0.0.0" 8383 (by decide) rfl
    (by intro x hx
        rcases List.mem_cons.mp hx with h | h
        · subst h; exact ⟨⟨{ clientId := 1 }, rfl⟩, true, rfl⟩
        · simp only [List.mem_singleton] at h
          subst h
          exact ⟨⟨{ clientId := 1 }, rfl⟩, false, rfl⟩)

/-- Claim C8: on the success path the run returns nil and its effect trace
ends with exactly one server start on the given host and port, preceded by
(among others) the store-build effect of every GVK in the list. -/
theorem generateAndServeCRMetrics_serves_after_stores (env : KubeEnv)
    (ns : List String) (cat : List APIResourceList)
    (gvks : List GroupVersionKind) (host : String) (port : Int)
    (hns : ns ≠ []) (hcat : env.getAPIResourceLists = Except.ok cat)
    (hall : ∀ g ∈ gvks, gvkOk env cat g) :
    (GenerateAndServeCRMetrics env ns gvks host port).2.2 = Except.ok () ∧
    ∃ t, (GenerateAndServeCRMetrics env ns gvks host port).1
        = t ++ [Effect.startServe host port] ∧
      (∀ h p, Effect.startServe h p ∉ t) ∧
      (∀ g ∈ gvks, Effect.buildStores g.groupVersionString g.kind ∈ t) := by
  have hlen1 : ¬ ns.length < 1 := by
    have := List.length_pos.mpr hns
    omega
  obtain ⟨h1, h2, h3⟩ := gvkLoop_all_ok env ns cat gvks hall
  simp only [GenerateAndServeCRMetrics, if_neg hlen1, hcat, h1]
  refine ⟨trivial, Effect.fetchCatalog :: (gvkLoop env ns cat gvks).1, ?_, ?_, ?_⟩
  · simp [List.cons_append]
  · intro h p
    simp only [List.mem_cons, not_or]
    exact ⟨by simp, gvkLoop_no_serve env ns cat gvks h p⟩
  · intro g hg
    exact List.mem_cons_of_mem _ (h3 g hg)

/-- Concrete instance of `generateAndServeCRMetrics_serves_after_stores`: one
namespaced GVK, server started last. -/
theorem generateAndServeCRMetrics_serves_after_stores_witness :
    (GenerateAndServeCRMetrics envW ["ns1"] [gvkGood] "0.0.0.0" 8383).2.2
      = Except.ok () ∧
    ∃ t, (GenerateAndServeCRMetrics envW ["ns1"] [gvkGood] "0.0.0.0" 8383).1
        = t ++ [Effect.startServe "0.0.0.0" 8383] ∧
      (∀ h p, Effect.startServe h p ∉ t) ∧
      (∀ g ∈ [gvkGood], Effect.buildStores g.groupVersionString g.kind ∈ t) :=
  generateAndServeCRMetrics_serves_after_stores envW ["ns1"] catW
    [gvkGood] "0.0.0.0" 8383 (by decide) rfl
    (by intro x hx
        simp only [List.mem_singleton] at hx
        subst hx
        exact ⟨⟨{ clientId := 1 }, rfl⟩, true, rfl⟩)
